import Mathlib

/-!
Verification of the Sport-Dashboard analytics engine.

This file gives a shallow embedding of the analytics logic of the
repository (the scripts `maak_dashboard.py` and `update_activities.py`)
and proves or refutes the specified properties of that logic.

Python strings are modelled as `List Char`; pandas missing values (`NaN`
/ `NaT`) are modelled as `Option`; numeric values are modelled as `ℚ`.
Components that the specification describes but that are absent from the
source (the streak calculator and the temporal comparator) are modelled
from the specification text and marked as such in their doc comments.
-/

/-! ### ASCII character primitives (model of Python `str` operations) -/

/-- Decides whether a character is an ASCII decimal digit. -/
def isDigitC (c : Char) : Bool := 48 ≤ c.toNat && c.toNat ≤ 57

/-- Decides whether a character is an ASCII letter. -/
def isAlphaC (c : Char) : Bool :=
  (65 ≤ c.toNat && c.toNat ≤ 90) || (97 ≤ c.toNat && c.toNat ≤ 122)

/-- Model of Python `str.lower` on one ASCII character. -/
def lowerChar (c : Char) : Char :=
  if 65 ≤ c.toNat && c.toNat ≤ 90 then Char.ofNat (c.toNat + 32) else c

/-- The ASCII digit character for a value `n < 10`. -/
def digitChar (n : Nat) : Char := Char.ofNat (48 + n)

/-- Numeric value of an ASCII digit character. -/
def digitVal (c : Char) : Nat := c.toNat - 48

/-- Fuelled decimal printer (fuel makes it structurally recursive, so that
concrete evaluation by `decide` is possible). -/
def toDecimalAux : Nat → Nat → List Char
  | 0, _ => []
  | fuel + 1, n =>
    if n < 10 then [digitChar n] else toDecimalAux fuel (n / 10) ++ [digitChar (n % 10)]

/-- Decimal representation of a natural number, as Python `str(n)` produces it. -/
def toDecimal (n : Nat) : List Char := toDecimalAux (n + 1) n

/-- Reads a list of ASCII digit characters as a natural number. -/
def parseNatDigits (l : List Char) : Nat := l.foldl (fun a c => a * 10 + digitVal c) 0

/-- Takes at most `k` leading digit characters, returning them and the rest.
This models how a `strptime`-style numeric directive consumes its input. -/
def takeDigits : Nat → List Char → List Char × List Char
  | 0, s => ([], s)
  | _ + 1, [] => ([], [])
  | k + 1, c :: t =>
    if isDigitC c then (c :: (takeDigits k t).1, (takeDigits k t).2)
    else ([], c :: t)

/-- Model of the Python `in` substring test on strings. -/
def containsSub : List Char → List Char → Bool
  | pat, [] => pat.isEmpty
  | pat, c :: t => pat.isPrefixOf (c :: t) || containsSub pat t

/-- Fuelled model of Python `str.replace(key, repl)`: left-to-right,
non-overlapping replacement of every occurrence of `key` by `repl`. -/
def replaceAllAux : Nat → List Char → List Char → List Char → List Char
  | 0, _, _, s => s
  | _ + 1, _, _, [] => []
  | fuel + 1, key, repl, c :: t =>
    if !key.isEmpty && key.isPrefixOf (c :: t) then
      repl ++ replaceAllAux fuel key repl ((c :: t).drop key.length)
    else
      c :: replaceAllAux fuel key repl t

/-- Model of Python `str.replace(key, repl)`. -/
def replaceAll (key repl s : List Char) : List Char :=
  replaceAllAux (s.length + 1) key repl s

/-! ### Dates

Model of `format_date` (from `update_activities.py`) and
`robust_date_parser_final` (from `maak_dashboard.py`). -/

/-- A calendar date with time at seconds precision, playing the role of a
Python `datetime` value. -/
structure DateTimeV where
  year : Nat
  month : Nat
  day : Nat
  hour : Nat
  minute : Nat
  second : Nat
deriving DecidableEq

/-- The `dutch_month_mapping` dictionary of `robust_date_parser_final`,
as the ordered list of (Dutch, English) replacement pairs the code folds
over with `str.replace`. -/
def dutchMonthPairs : List (List Char × List Char) :=
  [(['j', 'a', 'n'], ['J', 'a', 'n']), (['f', 'e', 'b'], ['F', 'e', 'b']),
   (['m', 'r', 't'], ['M', 'a', 'r']), (['a', 'p', 'r'], ['A', 'p', 'r']),
   (['m', 'e', 'i'], ['M', 'a', 'y']), (['j', 'u', 'n'], ['J', 'u', 'n']),
   (['j', 'u', 'l'], ['J', 'u', 'l']), (['a', 'u', 'g'], ['A', 'u', 'g']),
   (['s', 'e', 'p'], ['S', 'e', 'p']), (['o', 'k', 't'], ['O', 'c', 't']),
   (['n', 'o', 'v'], ['N', 'o', 'v']), (['d', 'e', 'c'], ['D', 'e', 'c'])]

/-- Applies all twelve Dutch-to-English month replacements in order, as the
loop `for dutch, eng in dutch_month_mapping.items(): ... str.replace(...)`. -/
def applyReplacements (s : List Char) : List Char :=
  dutchMonthPairs.foldl (fun acc p => replaceAll p.1 p.2 acc) s

/-- Recognises a capitalised or lowercase English three-letter month
abbreviation, as the (case-insensitive) `%b` directive of `strptime` does on
the abbreviations produced by the replacement step. -/
def monthOf (c1 c2 c3 : Char) : Option Nat :=
  if lowerChar c1 = 'j' ∧ lowerChar c2 = 'a' ∧ lowerChar c3 = 'n' then some 1
  else if lowerChar c1 = 'f' ∧ lowerChar c2 = 'e' ∧ lowerChar c3 = 'b' then some 2
  else if lowerChar c1 = 'm' ∧ lowerChar c2 = 'a' ∧ lowerChar c3 = 'r' then some 3
  else if lowerChar c1 = 'a' ∧ lowerChar c2 = 'p' ∧ lowerChar c3 = 'r' then some 4
  else if lowerChar c1 = 'm' ∧ lowerChar c2 = 'a' ∧ lowerChar c3 = 'y' then some 5
  else if lowerChar c1 = 'j' ∧ lowerChar c2 = 'u' ∧ lowerChar c3 = 'n' then some 6
  else if lowerChar c1 = 'j' ∧ lowerChar c2 = 'u' ∧ lowerChar c3 = 'l' then some 7
  else if lowerChar c1 = 'a' ∧ lowerChar c2 = 'u' ∧ lowerChar c3 = 'g' then some 8
  else if lowerChar c1 = 's' ∧ lowerChar c2 = 'e' ∧ lowerChar c3 = 'p' then some 9
  else if lowerChar c1 = 'o' ∧ lowerChar c2 = 'c' ∧ lowerChar c3 = 't' then some 10
  else if lowerChar c1 = 'n' ∧ lowerChar c2 = 'o' ∧ lowerChar c3 = 'v' then some 11
  else if lowerChar c1 = 'd' ∧ lowerChar c2 = 'e' ∧ lowerChar c3 = 'c' then some 12
  else none

/-- Range validation performed by the datetime constructor underlying
`pd.to_datetime` (calendar-level day/month interaction is not modelled). -/
def mkDT (y mo d h mi s : Nat) : Option DateTimeV :=
  if 1 ≤ d ∧ d ≤ 31 ∧ 1 ≤ y ∧ y ≤ 9999 ∧ h ≤ 23 ∧ mi ≤ 59 ∧ s ≤ 59 then
    some ⟨y, mo, d, h, mi, s⟩
  else none

/-- Final step of the `'%d %b %Y, %H:%M:%S'` parse: `:` then two seconds
digits, then end of input. -/
def parseMS (dv mo yv hv mv : Nat) : List Char → Option DateTimeV
  | [] => none
  | c :: rest =>
    if c = ':' then
      if (takeDigits 2 rest).1 = [] then none
      else if (takeDigits 2 rest).2 = [] then
        mkDT yv mo dv hv mv (parseNatDigits (takeDigits 2 rest).1)
      else none
    else none

/-- Parse step for `:%M` of the strict format. -/
def parseHM (dv mo yv hv : Nat) : List Char → Option DateTimeV
  | [] => none
  | c :: rest =>
    if c = ':' then
      if (takeDigits 2 rest).1 = [] then none
      else parseMS dv mo yv hv (parseNatDigits (takeDigits 2 rest).1) (takeDigits 2 rest).2
    else none

/-- Parse step for `, %H` of the strict format. -/
def parseAfterYear (dv mo yv : Nat) : List Char → Option DateTimeV
  | c1 :: c2 :: rest =>
    if c1 = ',' ∧ c2 = ' ' then
      if (takeDigits 2 rest).1 = [] then none
      else parseHM dv mo yv (parseNatDigits (takeDigits 2 rest).1) (takeDigits 2 rest).2
    else none
  | _ => none

/-- Parse step for ` %Y` of the strict format.  The `%Y` directive of
CPython/pandas `strptime` matches exactly four digits, so the year must
consume four digit characters; shorter (unpadded) years are rejected. -/
def parseAfterMonth (dv mo : Nat) : List Char → Option DateTimeV
  | [] => none
  | c :: rest =>
    if c = ' ' then
      if (takeDigits 4 rest).1.length = 4 then
        parseAfterYear dv mo (parseNatDigits (takeDigits 4 rest).1) (takeDigits 4 rest).2
      else none
    else none

/-- Parse step for `%b` of the strict format. -/
def parseMonth (dv : Nat) : List Char → Option DateTimeV
  | c1 :: c2 :: c3 :: rest =>
    match monthOf c1 c2 c3 with
    | some mo => parseAfterMonth dv mo rest
    | none => none
  | _ => none

/-- Parse step for the space after `%d` of the strict format. -/
def parseAfterDay (dv : Nat) : List Char → Option DateTimeV
  | [] => none
  | c :: rest => if c = ' ' then parseMonth dv rest else none

/-- Model of `pd.to_datetime(s, format='%d %b %Y, %H:%M:%S')` on one string
(already lowercased and month-replaced): an exact match of the format. -/
def parseStrict (s : List Char) : Option DateTimeV :=
  if (takeDigits 2 s).1 = [] then none
  else parseAfterDay (parseNatDigits (takeDigits 2 s).1) (takeDigits 2 s).2

/-- One numeric day-first form `d<sep>m<Y>` with optional ` H:M:S` tail,
used by the fallback parse below. -/
def parseSepDate (sep : Char) (s : List Char) : Option DateTimeV :=
  if (takeDigits 2 s).1 = [] then none
  else
    match (takeDigits 2 s).2 with
    | c1 :: rest1 =>
      if c1 = sep then
        if (takeDigits 2 rest1).1 = [] then none
        else
          match (takeDigits 2 rest1).2 with
          | c2 :: rest2 =>
            if c2 = sep then
              if (takeDigits 4 rest2).1 = [] then none
              else
                match (takeDigits 4 rest2).2 with
                | [] =>
                  mkDT (parseNatDigits (takeDigits 4 rest2).1)
                    (parseNatDigits (takeDigits 2 rest1).1)
                    (parseNatDigits (takeDigits 2 s).1) 0 0 0
                | c3 :: rest3 =>
                  if c3 = ' ' then
                    parseHM (parseNatDigits (takeDigits 2 s).1)
                      (parseNatDigits (takeDigits 2 rest1).1)
                      (parseNatDigits (takeDigits 4 rest2).1)
                      (parseNatDigits (takeDigits 2 rest3).1) (takeDigits 2 rest3).2
                  else none
            else none
          | [] => none
      else none
    | [] => none

/-- Model of the second pass `pd.to_datetime(..., errors='coerce',
dayfirst=True)`: that call delegates to a general-purpose date parser (an
external library); it is modelled here restricted to the common numeric
day-first forms `d-m-Y` and `d/m/Y` with an optional time. -/
def fallbackParse (s : List Char) : Option DateTimeV :=
  match parseSepDate '-' s with
  | some d => some d
  | none => parseSepDate '/' s

/-- Model of `robust_date_parser_final` on one cell: lowercase, replace the
Dutch month abbreviations, try the strict format, then fall back to the
general parse; an unparseable value becomes `none` (pandas `NaT`), never an
error. -/
def robustDateParserFinal (s : List Char) : Option DateTimeV :=
  match parseStrict (applyReplacements (s.map lowerChar)) with
  | some d => some d
  | none => fallbackParse (applyReplacements (s.map lowerChar))

/-! ### Categorization

Model of `get_activity_icon` (from `maak_dashboard.py`) and `TYPE_MAPPING`
(from `update_activities.py`). -/

/-- The closed set of outcomes of `get_activity_icon`, one constructor per
returned icon: 🏊, ⛰️, 🚴, 🎾, 🚶, 🏃 and the fallback ✨. -/
inductive Icon where
  | zwem
  | virtueleFiets
  | fiets
  | training
  | wandel
  | hardloop
  | overig
deriving DecidableEq

/-- Keyword `'Zwemmen'`. -/
def kZwemmen : List Char := "Zwemmen".toList

/-- Keyword `'Virtuele Fietsrit'`. -/
def kVirtueleFietsrit : List Char := "Virtuele Fietsrit".toList

/-- Keyword `'Fiets'`. -/
def kFiets : List Char := "Fiets".toList

/-- Keyword `'Training'`. -/
def kTraining : List Char := "Training".toList

/-- Keyword `'Wandel'`. -/
def kWandel : List Char := "Wandel".toList

/-- Keyword `'Hike'`. -/
def kHike : List Char := "Hike".toList

/-- Keyword `'Hardloop'`. -/
def kHardloop : List Char := "Hardloop".toList

/-- Model of `get_activity_icon(activity_type)`: an ordered chain of
case-sensitive substring tests on the raw type string (the source first
applies `str(...)`, so the function is total on any cell). -/
def getActivityIcon (t : List Char) : Icon :=
  if containsSub kZwemmen t then Icon.zwem
  else if containsSub kVirtueleFietsrit t then Icon.virtueleFiets
  else if containsSub kFiets t then Icon.fiets
  else if containsSub kTraining t then Icon.training
  else if containsSub kWandel t || containsSub kHike t then Icon.wandel
  else if containsSub kHardloop t then Icon.hardloop
  else Icon.overig

/-- The explicit ordered rule list underlying `get_activity_icon`: each rule
is a set of keywords together with the icon it yields; the first rule with a
matching keyword wins. -/
def iconRules : List (List (List Char) × Icon) :=
  [([kZwemmen], Icon.zwem),
   ([kVirtueleFietsrit], Icon.virtueleFiets),
   ([kFiets], Icon.fiets),
   ([kTraining], Icon.training),
   ([kWandel, kHike], Icon.wandel),
   ([kHardloop], Icon.hardloop)]

/-- First-match-wins evaluation of an ordered rule list, with `Icon.overig`
as the fallback when no rule matches. -/
def applyIconRules (t : List Char) : Icon :=
  match iconRules.find? (fun r => r.1.any (fun p => containsSub p t)) with
  | some r => r.2
  | none => Icon.overig

/-- Modelled from the spec: categorization as the specification describes it
(case-insensitive substring matching of the same ordered keyword rules
against both the raw type and the raw name), for comparison with the
source's `get_activity_icon`. -/
def specCategorize (ty nm : List Char) : Icon :=
  if containsSub (kZwemmen.map lowerChar) (ty.map lowerChar) ||
     containsSub (kZwemmen.map lowerChar) (nm.map lowerChar) then Icon.zwem
  else if containsSub (kVirtueleFietsrit.map lowerChar) (ty.map lowerChar) ||
     containsSub (kVirtueleFietsrit.map lowerChar) (nm.map lowerChar) then Icon.virtueleFiets
  else if containsSub (kFiets.map lowerChar) (ty.map lowerChar) ||
     containsSub (kFiets.map lowerChar) (nm.map lowerChar) then Icon.fiets
  else if containsSub (kTraining.map lowerChar) (ty.map lowerChar) ||
     containsSub (kTraining.map lowerChar) (nm.map lowerChar) then Icon.training
  else if containsSub (kWandel.map lowerChar) (ty.map lowerChar) ||
     containsSub (kWandel.map lowerChar) (nm.map lowerChar) ||
     containsSub (kHike.map lowerChar) (ty.map lowerChar) ||
     containsSub (kHike.map lowerChar) (nm.map lowerChar) then Icon.wandel
  else if containsSub (kHardloop.map lowerChar) (ty.map lowerChar) ||
     containsSub (kHardloop.map lowerChar) (nm.map lowerChar) then Icon.hardloop
  else Icon.overig

/-- The `TYPE_MAPPING` dictionary of `update_activities.py`: an exact-key
translation from Strava activity types to Dutch labels. -/
def TYPE_MAPPING : List (List Char × List Char) :=
  [("Ride".toList, "Fietsrit".toList),
   ("VirtualRide".toList, "Virtuele fietsrit".toList),
   ("Run".toList, "Hardloopsessie".toList),
   ("Walk".toList, "Wandeling".toList),
   ("Hike".toList, "Hike".toList),
   ("WeightTraining".toList, "Padel".toList),
   ("Workout".toList, "Padel".toList),
   ("Swim".toList, "Zwemmen".toList),
   ("GravelRide".toList, "Fietsrit".toList),
   ("TrailRun".toList, "Hardloopsessie".toList),
   ("Elliptical".toList, "Training".toList),
   ("Yoga".toList, "Training".toList)]

/-- Model of `TYPE_MAPPING.get(act.get('type'), act.get('type', 'Overig'))`:
exact dictionary lookup whose fallback is the raw type itself, or the label
`'Overig'` when the type field is absent. -/
def mapActivityType : Option (List Char) → List Char
  | none => "Overig".toList
  | some t => (((TYPE_MAPPING.find? (fun p => p.1 == t)).map (fun p => p.2)).getD t)

/-! ### Numeric cells

Model of the comma-to-dot conversion and `pd.to_numeric(..., errors='coerce')`
cleanup in `genereer_html_dashboard`. -/

/-- Parses an unsigned decimal literal (digits with an optional fractional
part) into a rational, the forms accepted by `pd.to_numeric` that this
data can contain. -/
def parseUnsignedQ (s : List Char) : Option ℚ :=
  if s.takeWhile isDigitC = s then
    if s = [] then none else some (parseNatDigits s)
  else
    match s.dropWhile isDigitC with
    | '.' :: fp =>
      if fp.all isDigitC ∧ fp ≠ [] then
        some ((parseNatDigits (s.takeWhile isDigitC) : ℚ) +
          (parseNatDigits fp : ℚ) / ((10 : ℚ) ^ fp.length))
      else none
    | _ => none

/-- Parses a decimal literal with an optional leading minus sign; any other
content yields `none` (pandas `NaN`). -/
def parseNumeric : List Char → Option ℚ
  | '-' :: rest => (parseUnsignedQ rest).map (fun q => -q)
  | s => parseUnsignedQ s

/-- Model of cleaning one cell of a comma-decimal column: missing stays
missing, otherwise `str.replace(',', '.')` followed by
`pd.to_numeric(..., errors='coerce')`. -/
def cellQ (o : Option (List Char)) : Option ℚ :=
  o.bind (fun l => parseNumeric (replaceAll [','] ['.'] l))

/-- Model of a numeric cell read directly by `pd.read_csv` (the moving-time
column is not among the comma-converted columns). -/
def cellPlain (o : Option (List Char)) : Option ℚ := o.bind parseNumeric

/-! ### The record pipeline of `genereer_html_dashboard` -/

/-- One raw CSV row, with the columns that survive the renaming step; every
cell is an optional string. -/
structure RawRow where
  datum : List Char
  naamActiviteit : Option (List Char)
  activiteitstype : Option (List Char)
  afstand : Option (List Char)
  beweegtijd : Option (List Char)
  totaleStijging : Option (List Char)
  gemiddeldeSnelheid : Option (List Char)
  maxSnelheid : Option (List Char)
  gemiddeldeHartslag : Option (List Char)
  calorieen : Option (List Char)
  gemiddeldWattage : Option (List Char)
  totaalGehevenGewicht : Option (List Char)
deriving DecidableEq

/-- One cleaned record, after date parsing, numeric coercion and the
`fillna(0)` applied to elevation and calories only. -/
structure CleanRow where
  datum : Option DateTimeV
  jaar : Option Nat
  activiteitstype : List Char
  naam : Option (List Char)
  afstand : Option ℚ
  beweegtijd : Option ℚ
  stijging : ℚ
  snelheid : Option ℚ
  maxSnelheid : Option ℚ
  hartslag : Option ℚ
  calorieen : ℚ
  wattage : Option ℚ
  gewicht : Option ℚ
deriving DecidableEq

/-- Cleans one raw row: dates through `robust_date_parser_final` (failures
become `none`, and the derived year likewise), numeric columns through the
comma conversion and coercion, then `fillna(0)` for elevation and calories
only.  The m/s-to-km/h scaling of the speed columns is a fixed unit factor
applied upstream and does not affect the properties proved here. -/
def cleanRow (r : RawRow) : CleanRow :=
  { datum := robustDateParserFinal r.datum
    jaar := (robustDateParserFinal r.datum).map (fun d => d.year)
    activiteitstype := r.activiteitstype.getD []
    naam := r.naamActiviteit
    afstand := cellQ r.afstand
    beweegtijd := cellPlain r.beweegtijd
    stijging := (cellQ r.totaleStijging).getD 0
    snelheid := cellQ r.gemiddeldeSnelheid
    maxSnelheid := cellQ r.maxSnelheid
    hartslag := cellQ r.gemiddeldeHartslag
    calorieen := (cellQ r.calorieen).getD 0
    wattage := cellQ r.gemiddeldWattage
    gewicht := cellQ r.totaalGehevenGewicht }

/-- Model of `df_clean`: rows are kept iff the activity type is present
(`df_clean[df_clean['Activiteitstype'].notna()]`); the date is NOT part of
that filter. -/
def dfClean (rows : List RawRow) : List CleanRow :=
  (rows.filter (fun r => r.activiteitstype.isSome)).map cleanRow

/-- Session count of one activity type over the whole record set, as in the
`agg_totaal` groupby over `Activiteitstype` (rows with an unparseable date
still belong to some type group and are counted). -/
def aggTotaalAantal (rows : List RawRow) (t : List Char) : Nat :=
  ((dfClean rows).filter (fun c => c.activiteitstype == t)).length

/-- Session count of one (year, activity type) group, as in the `agg_jaar`
groupby over `['Jaar', 'Activiteitstype']`: pandas drops rows whose group
key is `NaN`, so rows without a parsed year are excluded here. -/
def aggJaarAantal (rows : List RawRow) (y : Nat) (t : List Char) : Nat :=
  ((dfClean rows).filter (fun c => c.jaar == some y && c.activiteitstype == t)).length

/-! ### Group aggregation (the `agg_jaar` / `agg_totaal` lambdas) -/

/-- The speed values that enter the mean-speed aggregation
`lambda x: x[df_clean.loc[x.index, 'Afstand_km'] > 0].mean()`: a session
contributes its average speed iff its distance is present and positive and
the speed itself is present (pandas `mean` skips `NaN`). -/
def speedSel (c : CleanRow) : Option ℚ :=
  match c.afstand with
  | some a => if 0 < a then c.snelheid else none
  | none => none

/-- Mean average speed of a group, `none` when no session qualifies (pandas
`mean` of an empty selection is `NaN`, not `0`). -/
def gemSnelheidGroep (g : List CleanRow) : Option ℚ :=
  if g.filterMap speedSel = [] then none
  else some ((g.filterMap speedSel).sum / ((g.filterMap speedSel).length : ℚ))

/-- Mean heart rate of a group: pandas `mean` skips absent values and yields
`NaN` (here `none`) when every value is absent. -/
def gemHartslagGroep (g : List CleanRow) : Option ℚ :=
  if g.filterMap (fun c => c.hartslag) = [] then none
  else some ((g.filterMap (fun c => c.hartslag)).sum /
    ((g.filterMap (fun c => c.hartslag)).length : ℚ))

/-- Maximum of a list of rationals, `none` on the empty list (pandas `max`
skips `NaN` and yields `NaN` when nothing remains). -/
def maxQ : List ℚ → Option ℚ
  | [] => none
  | x :: t =>
    match maxQ t with
    | none => some x
    | some m => some (max x m)

/-- The `Max_Gemiddelde_Snelheid_km_u` aggregate of `max_stats` /
`max_stats_totaal`: the plain maximum of the per-session average speeds of a
group, with no outlier filtering of any kind. -/
def maxGemSnelheidGroep (g : List CleanRow) : Option ℚ :=
  maxQ (g.filterMap (fun c => c.snelheid))

/-- The `Max_Afstand_km` aggregate of `max_stats`: the plain maximum of the
per-session distances of a group. -/
def maxAfstandGroep (g : List CleanRow) : Option ℚ :=
  maxQ (g.filterMap (fun c => c.afstand))

/-- Total distance of a group (`'sum'` aggregation; pandas `sum` skips
`NaN`, so an absent distance contributes nothing). -/
def totAfstandGroep (g : List CleanRow) : ℚ :=
  (g.filterMap (fun c => c.afstand)).sum

/-- Session count of a group (`'size'` aggregation: every row counts,
whatever its metric values). -/
def aantalGroep (g : List CleanRow) : Nat := g.length

/-! ### Report generation as a whole (for the idempotence property) -/

/-- The derived summaries of one report computation: the cleaned record set
together with the global aggregates built from it. -/
structure AnalyticsReport where
  clean : List CleanRow
  totaalAfstandKm : ℚ
  totaalTijdSec : ℚ
  aantalActiviteiten : Nat
deriving DecidableEq

/-- Builds the report from the raw record set; this is the whole data flow
of `genereer_html_dashboard` up to rendering, as a pure function. -/
def buildReport (rows : List RawRow) : AnalyticsReport :=
  { clean := dfClean rows
    totaalAfstandKm := ((dfClean rows).filterMap (fun c => c.afstand)).sum
    totaalTijdSec := ((dfClean rows).filterMap (fun c => c.beweegtijd)).sum
    aantalActiviteiten := (dfClean rows).length }

/-- The state the script touches: the input CSV and the dashboard file it
overwrites. -/
structure World where
  csv : List RawRow
  htmlOut : Option AnalyticsReport
deriving DecidableEq

/-- One run of the script: read the CSV, build the report, overwrite the
output file, and yield the report. -/
def runDashboard (w : World) : World × AnalyticsReport :=
  (⟨w.csv, some (buildReport w.csv)⟩, buildReport w.csv)

/-! ### Streak calculator

The specification's Streak Calculator (§4.3) has no implementation in the
repository's source files; it is modelled here from the specification
text. -/

/-- Modelled from the spec: the result of `compute_streaks` — current
length, longest length and the start/end of the longest run (absent on
empty input).  Dates and periods are day numbers counted from a fixed
Monday epoch. -/
structure StreakResult where
  current_length : Nat
  longest_length : Nat
  longest_range : Option (Nat × Nat)
deriving DecidableEq

/-- Modelled from the spec: inserts a period index into an ascending
duplicate-free list (step 1-2: the distinct period set, sorted ascending). -/
def insD (x : Nat) : List Nat → List Nat
  | [] => [x]
  | y :: ys =>
    if x < y then x :: y :: ys
    else if x = y then y :: ys
    else y :: insD x ys

/-- Modelled from the spec: the distinct, ascending list of period indices
on which at least one activity occurred. -/
def sortedDedup (ds : List Nat) : List Nat := ds.foldr insD []

/-- Modelled from the spec: chops an ascending duplicate-free index list
into its maximal runs of consecutive indices (step 3's scan of
consecutive pairs, gap exactly one period). -/
def groupRuns : List Nat → List (List Nat)
  | [] => []
  | x :: xs =>
    match groupRuns xs with
    | [] => [[x]]
    | [] :: rs => [x] :: rs
    | (y :: r) :: rs =>
      if x + 1 = y then (x :: y :: r) :: rs else [x] :: (y :: r) :: rs

/-- Modelled from the spec: tracks the maximum-length run while scanning
(the first maximal run is kept, as a running-maximum scan does). -/
def pickLongest (runs : List (List Nat)) : List Nat :=
  runs.foldl (fun best r => if best.length < r.length then r else best) []

/-- Modelled from the spec: step 4 — the current streak is live only if the
most recent active period is the current period or the immediately
preceding one; walking backward while the gap is one unit is the length of
the final run. -/
def currentStreak (runs : List (List Nat)) (now : Nat) : Nat :=
  match runs.getLast? with
  | none => 0
  | some lr =>
    match lr.getLast? with
    | none => 0
    | some lastP => if lastP = now || lastP + 1 = now then lr.length else 0

/-- Modelled from the spec: `compute_streaks` over period indices. -/
def computeStreaksCore (ds : List Nat) (now : Nat) : StreakResult :=
  { current_length := currentStreak (groupRuns (sortedDedup ds)) now
    longest_length := (pickLongest (groupRuns (sortedDedup ds))).length
    longest_range :=
      match (pickLongest (groupRuns (sortedDedup ds))).head?,
            (pickLongest (groupRuns (sortedDedup ds))).getLast? with
      | some a, some b => some (a, b)
      | _, _ => none }

/-- Modelled from the spec: `compute_streaks(records, day)` — periods are
calendar days. -/
def computeDayStreaks (dates : List Nat) (now : Nat) : StreakResult :=
  computeStreaksCore dates now

/-- Modelled from the spec: `compute_streaks(records, week)` — periods are
Monday-anchored weeks; with day numbers counted from a Monday epoch, the
week index of a date is its day number divided by 7. -/
def computeWeekStreaks (dates : List Nat) (now : Nat) : StreakResult :=
  computeStreaksCore (dates.map (fun d => d / 7)) (now / 7)

/-! ### Temporal comparator

The specification's Temporal Comparator (§4.4) has no implementation in the
repository's source files; it is modelled here from the specification
text. -/

/-- Modelled from the spec: one record of a year as the comparator sees it:
day-of-year plus the compared metrics. -/
structure PriorRecord where
  dayOfYear : Nat
  afstandKm : ℚ
  tijdSec : ℚ
  stijgingM : ℚ
deriving DecidableEq

/-- Modelled from the spec: the per-year aggregate used by the comparison
(count, distance, time, elevation). -/
structure YearAgg where
  aantal : Nat
  afstand : ℚ
  tijd : ℚ
  stijging : ℚ
deriving DecidableEq

/-- Modelled from the spec: aggregates a record list into a `YearAgg`. -/
def aggYear (rs : List PriorRecord) : YearAgg :=
  { aantal := rs.length
    afstand := (rs.map (fun r => r.afstandKm)).sum
    tijd := (rs.map (fun r => r.tijdSec)).sum
    stijging := (rs.map (fun r => r.stijgingM)).sum }

/-- Modelled from the spec: the prior-year records entering the baseline —
filtered to `day_of_year <= reference_day_of_year` iff the compared year is
the latest year with data, the full prior year otherwise. -/
def baselineRecords (prior : List PriorRecord) (refDay : Nat) (isLatest : Bool) :
    List PriorRecord :=
  if isLatest then prior.filter (fun r => decide (r.dayOfYear ≤ refDay)) else prior

/-- Modelled from the spec: the result of `compare` — the current aggregate,
the baseline aggregate (absent when there is no prior year), and signed
deltas per metric (absent when there is no baseline). -/
structure YearComparison where
  current : YearAgg
  baseline : Option YearAgg
  deltaAantal : Option ℤ
  deltaAfstand : Option ℚ
  deltaTijd : Option ℚ
  deltaStijging : Option ℚ
deriving DecidableEq

/-- Modelled from the spec: `compare(current_year_records,
prior_year_records, reference_day_of_year, is_latest_year)`; a missing prior
year degrades to an absent baseline, never an error, and inputs are not
mutated. -/
def compareYears (cur prior : List PriorRecord) (refDay : Nat) (isLatest : Bool) :
    YearComparison :=
  { current := aggYear cur
    baseline :=
      if prior.isEmpty then none
      else some (aggYear (baselineRecords prior refDay isLatest))
    deltaAantal :=
      if prior.isEmpty then none
      else some ((aggYear cur).aantal -
        ((aggYear (baselineRecords prior refDay isLatest)).aantal : ℤ))
    deltaAfstand :=
      if prior.isEmpty then none
      else some ((aggYear cur).afstand -
        (aggYear (baselineRecords prior refDay isLatest)).afstand)
    deltaTijd :=
      if prior.isEmpty then none
      else some ((aggYear cur).tijd -
        (aggYear (baselineRecords prior refDay isLatest)).tijd)
    deltaStijging :=
      if prior.isEmpty then none
      else some ((aggYear cur).stijging -
        (aggYear (baselineRecords prior refDay isLatest)).stijging) }

/-! ### Concrete sample data used by counterexamples and witnesses -/

/-- A raw row with a well-formed Dutch date and a present activity type. -/
def goodRow : RawRow :=
  { datum := "5 mei 2024, 10:00:00".toList
    naamActiviteit := some ("Ochtendrit".toList)
    activiteitstype := some ("Fietsrit".toList)
    afstand := some ("10,0".toList)
    beweegtijd := some ("3000".toList)
    totaleStijging := none
    gemiddeldeSnelheid := none
    maxSnelheid := none
    gemiddeldeHartslag := none
    calorieen := none
    gemiddeldWattage := none
    totaalGehevenGewicht := none }

/-- A raw row whose date cell is unparseable but whose type is present. -/
def badDateRow : RawRow :=
  { datum := "banaan".toList
    naamActiviteit := none
    activiteitstype := some ("Fietsrit".toList)
    afstand := some ("12,5".toList)
    beweegtijd := some ("3600".toList)
    totaleStijging := none
    gemiddeldeSnelheid := none
    maxSnelheid := none
    gemiddeldeHartslag := none
    calorieen := none
    gemiddeldWattage := none
    totaalGehevenGewicht := none }

/-- A raw row whose distance cell is unparseable text. -/
def badNumRow : RawRow :=
  { datum := "x".toList
    naamActiviteit := none
    activiteitstype := some ("Fietsrit".toList)
    afstand := some ("abc".toList)
    beweegtijd := none
    totaleStijging := none
    gemiddeldeSnelheid := some ("nvt".toList)
    maxSnelheid := none
    gemiddeldeHartslag := some ("?".toList)
    calorieen := none
    gemiddeldWattage := none
    totaalGehevenGewicht := none }

/-- A cleaned session whose computed average speed is a 400 km/h GPS
glitch. -/
def glitchRow : CleanRow :=
  { datum := none, jaar := some 2025, activiteitstype := "Fietsrit".toList
    naam := none, afstand := some 5, beweegtijd := some 45, stijging := 0
    snelheid := some 400, maxSnelheid := none, hartslag := none
    calorieen := 0, wattage := none, gewicht := none }

/-- A plausible cleaned cycling session at 30 km/h. -/
def rit30 : CleanRow :=
  { datum := none, jaar := some 2025, activiteitstype := "Fietsrit".toList
    naam := none, afstand := some 40, beweegtijd := some 4800, stijging := 0
    snelheid := some 30, maxSnelheid := none, hartslag := some 140
    calorieen := 0, wattage := none, gewicht := none }

/-- A plausible cleaned cycling session at 25 km/h. -/
def rit25 : CleanRow :=
  { datum := none, jaar := some 2025, activiteitstype := "Fietsrit".toList
    naam := none, afstand := some 38, beweegtijd := some 5472, stijging := 0
    snelheid := some 25, maxSnelheid := none, hartslag := none
    calorieen := 0, wattage := none, gewicht := none }

/-- The leaderboard group containing the glitch and two plausible rides. -/
def glitchGroep : List CleanRow := [glitchRow, rit30, rit25]

/-- A cleaned session without a heart-rate value and with zero distance. -/
def stilleRij : CleanRow :=
  { datum := none, jaar := some 2025, activiteitstype := "Padel".toList
    naam := none, afstand := some 0, beweegtijd := some 3600, stijging := 0
    snelheid := some 7, maxSnelheid := none, hartslag := none
    calorieen := 0, wattage := none, gewicht := none }

lemma digitChar_facts (k : Nat) (h : k < 10) :
    isDigitC (digitChar k) = true ∧ isAlphaC (digitChar k) = false ∧
      lowerChar (digitChar k) = digitChar k ∧ digitVal (digitChar k) = k := by
  interval_cases k <;> decide

lemma toDecimalAux_congr : ∀ f1 f2 n, n < f1 → n < f2 →
    toDecimalAux f1 n = toDecimalAux f2 n := by
  intro f1
  induction f1 with
  | zero => intro f2 n h; omega
  | succ f ih =>
    intro f2 n h1 h2
    cases f2 with
    | zero => omega
    | succ f2 =>
      simp only [toDecimalAux]
      by_cases h : n < 10
      · simp [h]
      · have hd : n / 10 < n := Nat.div_lt_self (by omega) (by omega)
        simp only [h, if_false]
        rw [ih f2 (n / 10) (by omega) (by omega)]

lemma toDecimal_lt10 {n : Nat} (h : n < 10) : toDecimal n = [digitChar n] := by
  simp [toDecimal, toDecimalAux, h]

lemma toDecimal_ge10 {n : Nat} (h : 10 ≤ n) :
    toDecimal n = toDecimal (n / 10) ++ [digitChar (n % 10)] := by
  have hd : n / 10 < n := Nat.div_lt_self (by omega) (by omega)
  simp only [toDecimal, toDecimalAux]
  rw [if_neg (by omega)]
  congr 1
  exact toDecimalAux_congr n (n / 10 + 1) (n / 10) (by omega) (by omega)

lemma toDecimal_chars : ∀ n c, c ∈ toDecimal n → ∃ k, k < 10 ∧ c = digitChar k := by
  intro n
  induction n using Nat.strong_induction_on with
  | _ n ih =>
    intro c hc
    by_cases h : n < 10
    · rw [toDecimal_lt10 h] at hc
      simp at hc
      exact ⟨n, h, hc⟩
    · rw [toDecimal_ge10 (by omega)] at hc
      rcases List.mem_append.mp hc with h1 | h2
      · exact ih (n / 10) (Nat.div_lt_self (by omega) (by omega)) c h1
      · simp at h2
        exact ⟨n % 10, Nat.mod_lt _ (by omega), h2⟩

lemma toDecimal_lower (n : Nat) : ∀ c ∈ toDecimal n, lowerChar c = c := by
  intro c hc
  obtain ⟨k, hk, rfl⟩ := toDecimal_chars n c hc
  exact (digitChar_facts k hk).2.2.1

lemma map_lower_id (l : List Char) (h : ∀ c ∈ l, lowerChar c = c) :
    l.map lowerChar = l := by
  induction l with
  | nil => rfl
  | cons c t ih => simp [h c (by simp), ih (fun x hx => h x (by simp [hx]))]

lemma segA_lower (n : Nat) : (toDecimal n ++ [' ']).map lowerChar = toDecimal n ++ [' '] := by
  apply map_lower_id
  intro c hc
  rcases List.mem_append.mp hc with h | h
  · exact toDecimal_lower n c h
  · simp at h; subst h; decide

lemma foldl_pick_ge (runs : List (List Nat)) : ∀ (init : List Nat),
    init.length ≤
      (runs.foldl (fun best r => if best.length < r.length then r else best) init).length ∧
    ∀ r ∈ runs,
      r.length ≤
        (runs.foldl (fun best r => if best.length < r.length then r else best) init).length := by
  induction runs with
  | nil => intro init; exact ⟨le_refl _, by simp⟩
  | cons x rs ih =>
    intro init
    simp only [List.foldl_cons]
    constructor
    · have h1 := (ih (if init.length < x.length then x else init)).1
      by_cases hx : init.length < x.length
      · simp only [hx, if_true] at h1 ⊢; omega
      · simp only [hx, if_false] at h1 ⊢; omega
    · intro r hr
      rcases List.mem_cons.mp hr with rfl | hr2
      · have h1 := (ih (if init.length < r.length then r else init)).1
        by_cases hx : init.length < r.length
        · simp only [hx, if_true] at h1 ⊢; omega
        · simp only [hx, if_false] at h1 ⊢; omega
      · exact (ih _).2 r hr2

lemma pickLongest_ge (runs : List (List Nat)) :
    ∀ r ∈ runs, r.length ≤ (pickLongest runs).length :=
  fun r hr => (foldl_pick_ge runs []).2 r hr

lemma mem_of_getLast? {α : Type} : ∀ (l : List α) (a : α), l.getLast? = some a → a ∈ l := by
  intro l
  induction l with
  | nil => intro a h; simp [List.getLast?] at h
  | cons x t ih =>
    intro a h
    cases t with
    | nil =>
      rw [List.getLast?_singleton] at h
      injection h with h1
      subst h1
      simp
    | cons y s =>
      rw [List.getLast?_cons_cons] at h
      exact List.mem_cons.mpr (Or.inr (ih a h))

lemma currentStreak_le (runs : List (List Nat)) (now : Nat) :
    currentStreak runs now ≤ (pickLongest runs).length := by
  unfold currentStreak
  split
  · exact Nat.zero_le _
  · rename_i lr hL
    split
    · exact Nat.zero_le _
    · rename_i lastP hl2
      split
      · exact pickLongest_ge runs lr (mem_of_getLast? runs lr hL)
      · exact Nat.zero_le _

lemma computeStreaksCore_le (ds : List Nat) (now : Nat) :
    (computeStreaksCore ds now).current_length ≤ (computeStreaksCore ds now).longest_length :=
  currentStreak_le _ now

lemma computeStreaksCore_empty (now : Nat) : computeStreaksCore [] now = ⟨0, 0, none⟩ := rfl

lemma computeStreaksCore_singleton (x now : Nat) :
    (computeStreaksCore [x] now).longest_length = 1 := rfl

lemma maxQ_mem_le (l : List ℚ) (v : ℚ) (hv : v ∈ l) : ∃ m, maxQ l = some m ∧ v ≤ m := by
  induction l with
  | nil => simp at hv
  | cons x t ih =>
    rcases List.mem_cons.mp hv with rfl | hv2
    · cases hm : maxQ t with
      | none => exact ⟨v, by simp [maxQ, hm], le_refl v⟩
      | some m => exact ⟨max v m, by simp [maxQ, hm], le_max_left v m⟩
    · obtain ⟨m, hm, hle⟩ := ih hv2
      cases hm' : maxQ t with
      | none => rw [hm'] at hm; exact absurd hm (by simp)
      | some m2 =>
        rw [hm'] at hm
        injection hm with hmm
        exact ⟨max x m2, by simp [maxQ, hm'], le_trans (hmm ▸ hle) (le_max_right x m2)⟩

lemma dfClean_append (a b : List RawRow) : dfClean (a ++ b) = dfClean a ++ dfClean b := by
  simp [dfClean, List.filter_append]

lemma dfClean_cons_some (r : RawRow) (rows : List RawRow)
    (h : r.activiteitstype.isSome = true) :
    dfClean (r :: rows) = cleanRow r :: dfClean rows := by
  simp [dfClean, List.filter_cons, h]

/-! ### Claim theorems -/

/-- C1 (amended): categorization is total and deterministic, but it is
case-SENSITIVE substring matching against the raw type only:
`get_activity_icon` returns the fallback icon exactly when none of its
keywords occurs in the raw type, and the `TYPE_MAPPING` lookup is an exact
dictionary lookup whose fallback is the raw type itself (`'Overig'` only
when the type field is absent), not the Other category. -/
theorem c1_categorization_total_fallback :
    (∀ t : List Char, getActivityIcon t = Icon.overig ↔
      (containsSub kZwemmen t = false ∧ containsSub kVirtueleFietsrit t = false ∧
       containsSub kFiets t = false ∧ containsSub kTraining t = false ∧
       containsSub kWandel t = false ∧ containsSub kHike t = false ∧
       containsSub kHardloop t = false)) ∧
    (∀ t : List Char, TYPE_MAPPING.find? (fun p => p.1 == t) = none →
      mapActivityType (some t) = t) ∧
    mapActivityType none = "Overig".toList := by
  refine ⟨fun t => ?_, fun t h => ?_, rfl⟩
  · unfold getActivityIcon
    cases h1 : containsSub kZwemmen t <;>
      cases h2 : containsSub kVirtueleFietsrit t <;>
        cases h3 : containsSub kFiets t <;>
          cases h4 : containsSub kTraining t <;>
            cases h5 : containsSub kWandel t <;>
              cases h6 : containsSub kHike t <;>
                cases h7 : containsSub kHardloop t <;>
                  simp [h1, h2, h3, h4, h5, h6, h7]
  · simp [mapActivityType, h]

/-- Counterexample for C1: matching is case-sensitive and uses the raw type
only — the all-lowercase raw type "fietsrit" falls through to the fallback,
although the specification's case-insensitive matcher assigns the cycling
category (which the code does assign to the capitalised spelling). -/
theorem c1_counterexample :
    getActivityIcon ("fietsrit".toList) = Icon.overig ∧
    specCategorize ("fietsrit".toList) [] = Icon.fiets ∧
    getActivityIcon ("Fietsrit".toList) = Icon.fiets := by decide

/-- Witness for C1: a type absent from `TYPE_MAPPING` maps to itself. -/
theorem c1_witness :
    mapActivityType (some ("Kayaking".toList)) = "Kayaking".toList :=
  c1_categorization_total_fallback.2.1 ("Kayaking".toList) (by decide)

/-- C2 (amended): `get_activity_icon` is exactly first-match-wins evaluation
of its ordered rule list, and a raw type containing both the virtual-ride
keyword and the training keyword resolves to the indoor-cycling icon
provided the earlier swimming rule does not match. -/
theorem c2_ordered_rules_first_match :
    (∀ t : List Char, getActivityIcon t = applyIconRules t) ∧
    (∀ t : List Char, containsSub kVirtueleFietsrit t = true →
      containsSub kTraining t = true → containsSub kZwemmen t = false →
      getActivityIcon t = Icon.virtueleFiets) := by
  constructor
  · intro t
    unfold getActivityIcon applyIconRules iconRules
    cases h1 : containsSub kZwemmen t <;>
      cases h2 : containsSub kVirtueleFietsrit t <;>
        cases h3 : containsSub kFiets t <;>
          cases h4 : containsSub kTraining t <;>
            cases h5 : containsSub kWandel t <;>
              cases h6 : containsSub kHike t <;>
                cases h7 : containsSub kHardloop t <;>
                  simp [List.find?, List.any_cons, List.any_nil, h1, h2, h3, h4, h5, h6, h7]
  · intro t h2 h4 h1
    unfold getActivityIcon
    simp [h1, h2]

/-- Counterexample for C2: a raw type containing the virtual-ride keyword
and the training keyword but also the swimming keyword resolves to the
swimming icon, not the indoor-cycling one, because the swimming rule
precedes the virtual-ride rule. -/
theorem c2_counterexample :
    containsSub kVirtueleFietsrit ("Zwemmen en Virtuele Fietsrit Training".toList) = true ∧
    containsSub kTraining ("Zwemmen en Virtuele Fietsrit Training".toList) = true ∧
    getActivityIcon ("Zwemmen en Virtuele Fietsrit Training".toList) = Icon.zwem ∧
    Icon.zwem ≠ Icon.virtueleFiets := by decide

/-- Witness for C2: a virtual ride whose name also mentions training is
classified as a virtual ride. -/
theorem c2_witness :
    getActivityIcon ("Virtuele Fietsrit Training".toList) = Icon.virtueleFiets :=
  c2_ordered_rules_first_match.2 ("Virtuele Fietsrit Training".toList)
    (by decide) (by decide) (by decide)

/-- C3 (amended): a row whose date cell cannot be parsed is NOT dropped:
with its activity type present it stays in the cleaned record set (and in
the per-type totals, which grow by one), its parsed date and year are
absent, and it is excluded from the per-year aggregation only because
pandas drops `NaN` group keys; no failure counter exists. -/
theorem c3_unparseable_dates_retained (pre post : List RawRow) (r : RawRow) (t : List Char)
    (ht : r.activiteitstype = some t)
    (hbad : robustDateParserFinal r.datum = none) :
    cleanRow r ∈ dfClean (pre ++ r :: post) ∧
    (cleanRow r).jaar = none ∧
    (∀ y ty, aggJaarAantal (pre ++ r :: post) y ty = aggJaarAantal (pre ++ post) y ty) ∧
    aggTotaalAantal (pre ++ r :: post) t = aggTotaalAantal (pre ++ post) t + 1 := by
  have hsome : r.activiteitstype.isSome = true := by rw [ht]; rfl
  have hjaar : (cleanRow r).jaar = none := by simp [cleanRow, hbad]
  have hsplit : dfClean (pre ++ r :: post) = dfClean pre ++ cleanRow r :: dfClean post := by
    rw [dfClean_append, dfClean_cons_some r post hsome]
  have hsplit2 : dfClean (pre ++ post) = dfClean pre ++ dfClean post := dfClean_append pre post
  refine ⟨?_, hjaar, ?_, ?_⟩
  · rw [hsplit]
    exact List.mem_append.mpr (Or.inr (by simp))
  · intro y ty
    unfold aggJaarAantal
    rw [hsplit, hsplit2]
    simp [List.filter_append, List.filter_cons, hjaar]
  · unfold aggTotaalAantal
    rw [hsplit, hsplit2]
    have htype : (cleanRow r).activiteitstype = t := by simp [cleanRow, ht]
    simp [List.filter_append, List.filter_cons, htype]
    omega

/-- Counterexample for C3: the record with the unparseable date "banaan" is
not excluded from the analyzed record set — both rows survive cleaning and
both are counted in the per-type totals. -/
theorem c3_counterexample :
    (dfClean [goodRow, badDateRow]).length = 2 ∧
    robustDateParserFinal badDateRow.datum = none ∧
    (cleanRow badDateRow).jaar = none ∧
    aggTotaalAantal [goodRow, badDateRow] ("Fietsrit".toList) = 2 := by decide

/-- Witness for C3: the bad-date row stays in the cleaned set, is invisible
to the per-year count, and adds one to the per-type total. -/
theorem c3_witness :
    cleanRow badDateRow ∈ dfClean ([goodRow] ++ badDateRow :: []) ∧
    aggJaarAantal ([goodRow] ++ badDateRow :: []) 2024 ("Fietsrit".toList) =
      aggJaarAantal ([goodRow] ++ []) 2024 ("Fietsrit".toList) ∧
    aggTotaalAantal ([goodRow] ++ badDateRow :: []) ("Fietsrit".toList) =
      aggTotaalAantal ([goodRow] ++ []) ("Fietsrit".toList) + 1 :=
  ⟨(c3_unparseable_dates_retained [goodRow] [] badDateRow ("Fietsrit".toList) rfl
      (by decide)).1,
   (c3_unparseable_dates_retained [goodRow] [] badDateRow ("Fietsrit".toList) rfl
      (by decide)).2.2.1 2024 ("Fietsrit".toList),
   (c3_unparseable_dates_retained [goodRow] [] badDateRow ("Fietsrit".toList) rfl
      (by decide)).2.2.2⟩

/-- C4 (amended): the per-category record stats of `max_stats` are plain
maxima with no outlier filtering and no top-3 list: every present session
speed (however implausible) is dominated by the reported maximum, totals
grow by each session's distance, and the session count includes every
session. -/
theorem c4_max_stats_no_filter :
    (∀ (g : List CleanRow) (c : CleanRow) (v : ℚ), c ∈ g → c.snelheid = some v →
      ∃ m, maxGemSnelheidGroep g = some m ∧ v ≤ m) ∧
    (∀ (g : List CleanRow) (c : CleanRow),
      totAfstandGroep (g ++ [c]) = totAfstandGroep g + (c.afstand.getD 0)) ∧
    (∀ (g : List CleanRow) (c : CleanRow), aantalGroep (g ++ [c]) = aantalGroep g + 1) := by
  refine ⟨fun g c v hc hv => ?_, fun g c => ?_, fun g c => ?_⟩
  · apply maxQ_mem_le
    exact List.mem_filterMap.mpr ⟨c, hc, by rw [hv]⟩
  · unfold totAfstandGroep
    rw [List.filterMap_append]
    cases h : c.afstand <;> simp [List.filterMap_cons, h, List.sum_append]
  · simp [aantalGroep]

/-- Counterexample for C4: in a group with a 400 km/h GPS-glitch session
and two plausible sessions, the "fastest" stat is the glitch itself (no
outlier filtering and no top-3 ranking exist), while totals and count do
include every session. -/
theorem c4_counterexample :
    maxGemSnelheidGroep glitchGroep = some 400 ∧
    maxGemSnelheidGroep glitchGroep ≠ some 30 ∧
    aantalGroep glitchGroep = 3 ∧
    totAfstandGroep glitchGroep = 83 := by
  have hmax : maxGemSnelheidGroep glitchGroep = some 400 := by
    simp only [maxGemSnelheidGroep, glitchGroep, glitchRow, rit30, rit25,
      List.filterMap_cons, List.filterMap_nil, maxQ]
    norm_num [max_def]
  refine ⟨hmax, by rw [hmax]; norm_num, rfl, ?_⟩
  simp only [totAfstandGroep, glitchGroep, glitchRow, rit30, rit25,
    List.filterMap_cons, List.filterMap_nil]
  norm_num

/-- Witness for C4: the glitch session's 400 km/h is not excluded — it is
dominated by (indeed equal to) the reported maximum. -/
theorem c4_witness : (400 : ℚ) ≤ (maxGemSnelheidGroep glitchGroep).getD 0 := by
  obtain ⟨m, hm, hle⟩ :=
    c4_max_stats_no_filter.1 glitchGroep glitchRow 400 (by simp [glitchGroep]) rfl
  rw [hm]
  simpa using hle

/-- C5: for every record set and for both day and week streaks,
`longest_length ≥ current_length`; empty input yields zero-length streaks
with no range; a single activity date yields `longest_length = 1`. -/
theorem c5_streak_invariants :
    (∀ (ds : List Nat) (now : Nat),
      (computeDayStreaks ds now).current_length ≤
        (computeDayStreaks ds now).longest_length) ∧
    (∀ (ds : List Nat) (now : Nat),
      (computeWeekStreaks ds now).current_length ≤
        (computeWeekStreaks ds now).longest_length) ∧
    (∀ now : Nat, computeDayStreaks [] now = ⟨0, 0, none⟩) ∧
    (∀ now : Nat, computeWeekStreaks [] now = ⟨0, 0, none⟩) ∧
    (∀ d now : Nat, (computeDayStreaks [d] now).longest_length = 1) ∧
    (∀ d now : Nat, (computeWeekStreaks [d] now).longest_length = 1) :=
  ⟨fun ds now => computeStreaksCore_le ds now,
   fun _ _ => computeStreaksCore_le _ _,
   fun _ => computeStreaksCore_empty _,
   fun _ => computeStreaksCore_empty _,
   fun d now => computeStreaksCore_singleton d now,
   fun _ _ => computeStreaksCore_singleton _ _⟩

/-- C6: in the year comparison, the baseline uses prior-year records
filtered to `day_of_year <= reference_day_of_year` exactly when the
compared year is the latest year with data, and the full prior year
otherwise; with reference day 100, a prior year with entries on day 50 and
day 150 contributes only the day-50 entry. -/
theorem c6_ytd_baseline_filter :
    (∀ (cur prior : List PriorRecord) (refDay : Nat),
      (compareYears cur prior refDay true).baseline =
        (if prior.isEmpty then none
         else some (aggYear (prior.filter (fun r => decide (r.dayOfYear ≤ refDay)))))) ∧
    (∀ (cur prior : List PriorRecord) (refDay : Nat),
      (compareYears cur prior refDay false).baseline =
        (if prior.isEmpty then none else some (aggYear prior))) ∧
    (∀ (prior : List PriorRecord) (refDay : Nat) (r : PriorRecord),
      r ∈ baselineRecords prior refDay true ↔ (r ∈ prior ∧ r.dayOfYear ≤ refDay)) ∧
    (∀ (prior : List PriorRecord) (refDay : Nat),
      baselineRecords prior refDay false = prior) ∧
    baselineRecords [⟨50, 10, 3000, 0⟩, ⟨150, 12, 3600, 0⟩] 100 true =
      [⟨50, 10, 3000, 0⟩] := by
  refine ⟨fun cur prior refDay => ?_, fun cur prior refDay => ?_,
    fun prior refDay r => ?_, fun prior refDay => rfl, by decide⟩
  · simp [compareYears, baselineRecords]
  · simp [compareYears, baselineRecords]
  · simp [baselineRecords, List.mem_filter]

/-- C7 (amended): unparseable numeric cells are coerced to `NaN`, after
which only elevation and calories are filled with 0; distance, speed and
heart rate (and the other optional metrics) are left absent, not set to
0. -/
theorem c7_numeric_coercion (r : RawRow) :
    (cellQ r.totaleStijging = none → (cleanRow r).stijging = 0) ∧
    (cellQ r.calorieen = none → (cleanRow r).calorieen = 0) ∧
    (cellQ r.afstand = none → (cleanRow r).afstand = none) ∧
    (cellQ r.gemiddeldeSnelheid = none → (cleanRow r).snelheid = none) ∧
    (cellQ r.gemiddeldeHartslag = none → (cleanRow r).hartslag = none) := by
  refine ⟨fun h => ?_, fun h => ?_, fun h => ?_, fun h => ?_, fun h => ?_⟩ <;>
    simp [cleanRow, h]

/-- Counterexample for C7: a row whose distance cell is the unparseable
text "abc" ends with an absent distance, not distance 0 (while its missing
elevation cell is filled with 0). -/
theorem c7_counterexample :
    (cleanRow badNumRow).afstand = none ∧
    (cleanRow badNumRow).afstand ≠ some 0 ∧
    (cleanRow badNumRow).stijging = 0 := by decide

/-- Witness for C7: the bad-numeric row gets elevation 0 and absent
distance and heart rate. -/
theorem c7_witness :
    (cleanRow badNumRow).stijging = 0 ∧
    (cleanRow badNumRow).afstand = none ∧
    (cleanRow badNumRow).hartslag = none :=
  ⟨(c7_numeric_coercion badNumRow).1 rfl,
   (c7_numeric_coercion badNumRow).2.2.1 (by decide),
   (c7_numeric_coercion badNumRow).2.2.2.2 (by decide)⟩

/-- C8: missing optional metrics are explicit absences that never skew the
means — appending a session without a heart-rate value leaves the mean
heart rate unchanged, appending a session without a usable speed (absent
or non-positive distance) leaves the mean speed unchanged, and empty
selections yield "no data" (`none`), not 0. -/
theorem c8_missing_metrics_skipped :
    (∀ (g : List CleanRow) (c : CleanRow), c.hartslag = none →
      gemHartslagGroep (g ++ [c]) = gemHartslagGroep g) ∧
    (∀ (g : List CleanRow) (c : CleanRow), speedSel c = none →
      gemSnelheidGroep (g ++ [c]) = gemSnelheidGroep g) ∧
    (∀ c : CleanRow, c.afstand = none → speedSel c = none) ∧
    (∀ (c : CleanRow) (q : ℚ), c.afstand = some q → q ≤ 0 → speedSel c = none) ∧
    gemHartslagGroep [] = none ∧ gemSnelheidGroep [] = none := by
  refine ⟨fun g c h => ?_, fun g c h => ?_, fun c h => ?_, fun c q h hq => ?_, rfl, rfl⟩
  · unfold gemHartslagGroep
    rw [List.filterMap_append]
    simp [List.filterMap_cons, h]
  · unfold gemSnelheidGroep
    rw [List.filterMap_append]
    simp [List.filterMap_cons, h]
  · simp [speedSel, h]
  · simp only [speedSel, h]
    rw [if_neg (not_lt.mpr hq)]

/-- Witness for C8: appending the distance-0, heart-rate-less session
changes neither mean. -/
theorem c8_witness :
    gemHartslagGroep ([rit30] ++ [stilleRij]) = gemHartslagGroep [rit30] ∧
    gemSnelheidGroep ([rit30] ++ [stilleRij]) = gemSnelheidGroep [rit30] :=
  ⟨c8_missing_metrics_skipped.1 [rit30] stilleRij rfl,
   c8_missing_metrics_skipped.2.1 [rit30] stilleRij
     (c8_missing_metrics_skipped.2.2.2.1 stilleRij 0 rfl (le_refl 0))⟩

/-- C9: one run of the report generation is a pure function of the CSV
record set: running it a second time on the world the first run produced
yields the identical report and leaves the world unchanged, and the report
does not depend on the previous contents of the output file. -/
theorem c9_rerun_idempotent :
    ∀ w : World,
      (runDashboard (runDashboard w).1).2 = (runDashboard w).2 ∧
      (runDashboard (runDashboard w).1).1 = (runDashboard w).1 ∧
      ∀ (rows : List RawRow) (h1 h2 : Option AnalyticsReport),
        (runDashboard ⟨rows, h1⟩).2 = (runDashboard ⟨rows, h2⟩).2 :=
  fun _ => ⟨rfl, rfl, fun _ _ _ => rfl⟩
